import Mathlib

set_option maxRecDepth 8000
set_option maxHeartbeats 1600000

/-!
Verification of the subscription billing layer: a shallow embedding of the
PL/pgSQL stored procedures (`calculate_subscription_period_end`,
`generate_billing_period_text`, `validate_billing_period_accuracy`,
`update_billing_period_text` trigger, `handle_subscription_webhook`,
`get_subscription_access_status`, `cancel_subscription_safe`,
`reactivate_subscription`) together with theorems settling the spec claims.

Modelling conventions:
- A `timestamptz` is embedded as its civil (UTC) decomposition
  `Timestamp = {year, month, day, sec}`; instant comparison is the
  lexicographic order on the components, and `timestamptz` subtraction is
  the difference of epoch seconds computed by the standard civil-to-epoch
  conversion (`daysFromCivil`).
- Postgres `interval '1 month'` / `'1 year'` addition clamps the day of
  month to the target month's length; `interval '30 days'` addition steps
  the calendar day by day. `EXTRACT(DAY FROM (a - b))` on a timestamp
  difference is the seconds difference divided by 86400, truncated toward
  zero (`Int.tdiv`).
- `plan_type` and `status` are embedded as strings, matching the text-typed
  signatures of the migrations; the enum casts succeed on exactly the
  literal values the enums admit.
- The per-user subscription state is `Option Subscription` (the schema is
  used with at most one row per user: the webhook handler's `SELECT INTO`
  and `UPDATE ... WHERE user_id` assume it); `RAISE EXCEPTION` aborts the
  transaction, embedded as `Except String`.
- `now()` is transaction-stable in PL/pgSQL, so each procedure takes a
  single `now : Timestamp` argument.
-/

/-- Civil (UTC) decomposition of a `timestamptz`: year, month (1–12),
day of month, and second within the day. -/
structure Timestamp where
  year : Int
  month : Nat
  day : Nat
  sec : Nat
  deriving Repr, DecidableEq

/-- Gregorian leap-year rule (as used by Postgres date arithmetic). -/
def isLeapYear (y : Int) : Bool :=
  (y.emod 4 = 0 && y.emod 100 ≠ 0) || y.emod 400 = 0

/-- Number of days in a civil month. -/
def daysInMonth (y : Int) (m : Nat) : Nat :=
  match m with
  | 1 => 31
  | 2 => if isLeapYear y then 29 else 28
  | 3 => 31
  | 4 => 30
  | 5 => 31
  | 6 => 30
  | 7 => 31
  | 8 => 31
  | 9 => 30
  | 10 => 31
  | 11 => 30
  | 12 => 31
  | _ => 30

/-- Step a timestamp forward by one civil day (time of day unchanged). -/
def succDay (t : Timestamp) : Timestamp :=
  if t.day + 1 ≤ daysInMonth t.year t.month then
    { t with day := t.day + 1 }
  else if t.month + 1 ≤ 12 then
    { t with month := t.month + 1, day := 1 }
  else
    { t with year := t.year + 1, month := 1, day := 1 }

/-- Postgres `+ INTERVAL 'n days'` on a timestamp: n civil-day steps. -/
def addDays : Nat → Timestamp → Timestamp
  | 0, t => t
  | n + 1, t => succDay (addDays n t)

/-- Postgres `+ INTERVAL 'n months'` on a timestamp: advance the month,
clamping the day of month to the target month's length. -/
def addMonthsClip (n : Nat) (t : Timestamp) : Timestamp :=
  let tm : Nat := t.month - 1 + n
  let y : Int := t.year + tm / 12
  let m : Nat := tm % 12 + 1
  { t with year := y, month := m, day := min t.day (daysInMonth y m) }

/-- Postgres `+ INTERVAL 'n years'` on a timestamp: advance the year,
clamping Feb 29 to Feb 28 off leap years. -/
def addYearsClip (n : Nat) (t : Timestamp) : Timestamp :=
  let y : Int := t.year + n
  { t with year := y, day := min t.day (daysInMonth y t.month) }

/-- Instant comparison `a <= b` of two timestamps (lexicographic on the
civil components, which agrees with instant order). -/
def ts_le (a b : Timestamp) : Bool :=
  decide (a.year < b.year) ||
    (decide (a.year = b.year) &&
      (decide (a.month < b.month) ||
        (decide (a.month = b.month) &&
          (decide (a.day < b.day) ||
            (decide (a.day = b.day) && decide (a.sec ≤ b.sec))))))

/-- Strict instant comparison `a < b` of two timestamps. -/
def ts_lt (a b : Timestamp) : Bool :=
  decide (a.year < b.year) ||
    (decide (a.year = b.year) &&
      (decide (a.month < b.month) ||
        (decide (a.month = b.month) &&
          (decide (a.day < b.day) ||
            (decide (a.day = b.day) && decide (a.sec < b.sec))))))

/-- Days since the Unix epoch of a civil date (standard civil-from-days
conversion used by date libraries, including Postgres internals). -/
def daysFromCivil (y : Int) (m d : Nat) : Int :=
  let yk : Int := if m ≤ 2 then y - 1 else y
  let era : Int := yk.fdiv 400
  let yoe : Int := yk - era * 400
  let mp : Int := if 2 < m then (m : Int) - 3 else (m : Int) + 9
  let doy : Int := (153 * mp + 2).ediv 5 + (d : Int) - 1
  let doe : Int := yoe * 365 + yoe.ediv 4 - yoe.ediv 100 + doy
  era * 146097 + doe - 719468

/-- Seconds since the Unix epoch of a timestamp; differences of these are
the `interval` values produced by `timestamptz` subtraction. -/
def toEpochSec (t : Timestamp) : Int :=
  86400 * daysFromCivil t.year t.month t.day + (t.sec : Int)

/-- `EXTRACT(DAY FROM (a - b))` on a timestamp difference: whole days of
the interval, truncated toward zero. -/
def intervalExtractDays (a b : Timestamp) : Int :=
  (toEpochSec a - toEpochSec b).tdiv 86400

/-- Two-digit zero-padded day, as `to_char`'s `DD`. -/
def pad2 (n : Nat) : String :=
  if n < 10 then "0" ++ toString n else toString n

/-- Four-digit zero-padded year, as `to_char`'s `YYYY` (years in range for
this application are 4-digit; negative years render with a sign). -/
def pad4 (y : Int) : String :=
  if 0 ≤ y then
    let s := toString y.toNat
    if s.length < 4 then String.mk (List.replicate (4 - s.length) '0') ++ s else s
  else
    "-" ++ toString (-y).toNat

/-- `to_char`'s `Mon`: three-letter English month abbreviation. -/
def monthAbbrev (m : Nat) : String :=
  match m with
  | 1 => "Jan"
  | 2 => "Feb"
  | 3 => "Mar"
  | 4 => "Apr"
  | 5 => "May"
  | 6 => "Jun"
  | 7 => "Jul"
  | 8 => "Aug"
  | 9 => "Sep"
  | 10 => "Oct"
  | 11 => "Nov"
  | 12 => "Dec"
  | _ => ""

/-- `to_char(t, 'Mon DD, YYYY')`. -/
def toCharMonDDYYYY (t : Timestamp) : String :=
  monthAbbrev t.month ++ " " ++ pad2 t.day ++ ", " ++ pad4 t.year

/-- `calculate_subscription_period_end(plan_type, period_start)` from the
final migration: the CASE over plan tiers with the 30-day ELSE default. -/
def calculate_subscription_period_end (plan_type : String) (period_start : Timestamp) :
    Timestamp :=
  if plan_type = "trial" then addDays 30 period_start
  else if plan_type = "monthly" then addMonthsClip 1 period_start
  else if plan_type = "semiannual" then addMonthsClip 6 period_start
  else if plan_type = "annual" then addYearsClip 1 period_start
  else addDays 30 period_start

/-- `generate_billing_period_text(period_start, period_end, plan_type)`
from the final migration (reads `now()` for the expired prefix). -/
def generate_billing_period_text (period_start period_end : Timestamp)
    (plan_type : String) (now : Timestamp) : String :=
  let actual_days : Int := intervalExtractDays period_end period_start
  let is_expired : Bool := ts_le period_end now
  let start_formatted := toCharMonDDYYYY period_start
  let end_formatted := toCharMonDDYYYY period_end
  let duration_text : String :=
    if plan_type = "trial" then toString actual_days ++ " day trial"
    else if plan_type = "monthly" then "1 month"
    else if plan_type = "semiannual" then "6 months"
    else if plan_type = "annual" then "1 year"
    else toString actual_days ++ " days"
  let pfx : String := if is_expired then "Expired: " else ""
  pfx ++ start_formatted ++ " – " ++ end_formatted ++ " (" ++ duration_text ++ ")"

/-- `validate_billing_period_accuracy(period_start, period_end, plan_type)`
from the final migration: the stored period length must match the plan's
recomputed length within a 2-day tolerance. -/
def validate_billing_period_accuracy (period_start period_end : Timestamp)
    (plan_type : String) : Bool :=
  let expected_end := calculate_subscription_period_end plan_type period_start
  let actual_days : Int := intervalExtractDays period_end period_start
  let expected_days : Int := intervalExtractDays expected_end period_start
  (actual_days - expected_days).natAbs ≤ 2

/-- A row of the `subscriptions` table (the single authoritative row of one
user; `id`/`user_id` are outside the modelled logic). -/
structure Subscription where
  plan_type : String
  status : String
  stripe_subscription_id : Option String
  stripe_customer_id : Option String
  current_period_start : Timestamp
  current_period_end : Timestamp
  billing_period_text : String
  billing_period_accurate : Bool
  created_at : Timestamp
  updated_at : Timestamp
  deriving Repr, DecidableEq

/-- The `update_billing_period_text` BEFORE INSERT OR UPDATE trigger:
recompute both derived fields on the NEW row as part of the same write. -/
def update_billing_period_text (now : Timestamp) (r : Subscription) : Subscription :=
  { r with
    billing_period_text :=
      generate_billing_period_text r.current_period_start r.current_period_end
        r.plan_type now
    billing_period_accurate :=
      validate_billing_period_accuracy r.current_period_start r.current_period_end
        r.plan_type }

/-- Arguments of `handle_subscription_webhook` (nullable SQL parameters as
`Option`; `p_user_id` is implicit in the per-user state). -/
structure WebhookArgs where
  p_plan_type : String
  p_status : String
  p_stripe_subscription_id : Option String := none
  p_stripe_customer_id : Option String := none
  p_period_start : Option Timestamp := none
  p_period_end : Option Timestamp := none
  deriving Repr, DecidableEq

/-- `handle_subscription_webhook` from the final migration: the reconciler
upsert. Defaults the period bounds, then updates the user's existing row
in place (COALESCE-preserving the provider identifiers) or inserts a new
one; the BEFORE trigger recomputes the derived fields on either path. The
`users`-table upsert side effect touches no subscription state and is not
modelled. -/
def handle_subscription_webhook (a : WebhookArgs) (existing : Option Subscription)
    (now : Timestamp) : Subscription :=
  let calculated_period_start := a.p_period_start.getD now
  let calculated_period_end :=
    match a.p_period_end with
    | none => calculate_subscription_period_end a.p_plan_type calculated_period_start
    | some e => e
  match existing with
  | some s =>
      update_billing_period_text now
        { s with
          plan_type := a.p_plan_type
          status := a.p_status
          stripe_subscription_id :=
            Option.or a.p_stripe_subscription_id s.stripe_subscription_id
          stripe_customer_id :=
            Option.or a.p_stripe_customer_id s.stripe_customer_id
          current_period_start := calculated_period_start
          current_period_end := calculated_period_end
          updated_at := now }
  | none =>
      update_billing_period_text now
        { plan_type := a.p_plan_type
          status := a.p_status
          stripe_subscription_id := a.p_stripe_subscription_id
          stripe_customer_id := a.p_stripe_customer_id
          current_period_start := calculated_period_start
          current_period_end := calculated_period_end
          billing_period_text := ""
          billing_period_accurate := false
          created_at := now
          updated_at := now }

/-- Result row of `get_subscription_access_status` (the `RETURNS TABLE`
shape; `subscription_id` is outside the modelled logic). -/
structure AccessStatus where
  plan_type : String
  status : String
  stripe_subscription_id : Option String
  stripe_customer_id : Option String
  current_period_start : Timestamp
  current_period_end : Timestamp
  has_access : Bool
  days_remaining : Int
  is_expired : Bool
  is_cancelled : Bool
  billing_period_text : String
  created_at : Timestamp
  updated_at : Timestamp
  deriving Repr, DecidableEq

/-- The inline `format('%s – %s (%s)', ...)` of
`get_subscription_access_status` (its CASE has no ELSE arm: unknown tiers
yield SQL NULL, which `format`'s `%s` renders as the empty string). -/
def accessStatusBillingText (s : Subscription) : String :=
  toCharMonDDYYYY s.current_period_start ++ " – " ++
    toCharMonDDYYYY s.current_period_end ++ " (" ++
    (if s.plan_type = "trial" then "30 days"
     else if s.plan_type = "monthly" then "1 month"
     else if s.plan_type = "semiannual" then "6 months"
     else if s.plan_type = "annual" then "1 year"
     else "") ++ ")"

/-- `get_subscription_access_status(p_user_id)`: trial defaults when the
user has no row, otherwise the derived access view of the latest row
(`latest` is the row selected by `ORDER BY created_at DESC LIMIT 1`). -/
def get_subscription_access_status (latest : Option Subscription)
    (now : Timestamp) : AccessStatus :=
  match latest with
  | none =>
      { plan_type := "trial"
        status := "active"
        stripe_subscription_id := none
        stripe_customer_id := none
        current_period_start := now
        current_period_end := addDays 30 now
        has_access := true
        days_remaining := 30
        is_expired := false
        is_cancelled := false
        billing_period_text := "Free Trial - 30 days"
        created_at := now
        updated_at := now }
  | some s =>
      let is_expired : Bool := ts_le s.current_period_end now
      let is_cancelled : Bool := decide (s.status = "cancelled")
      let days_remaining : Int :=
        max 0 ((toEpochSec s.current_period_end - toEpochSec now).tdiv 86400)
      let has_access : Bool :=
        decide (s.status = "active") || (is_cancelled && !is_expired)
      { plan_type := s.plan_type
        status := s.status
        stripe_subscription_id := s.stripe_subscription_id
        stripe_customer_id := s.stripe_customer_id
        current_period_start := s.current_period_start
        current_period_end := s.current_period_end
        has_access := has_access
        days_remaining := days_remaining
        is_expired := is_expired
        is_cancelled := is_cancelled
        billing_period_text := accessStatusBillingText s
        created_at := s.created_at
        updated_at := s.updated_at }

/-- `cancel_subscription_safe(p_user_id, p_reason)`: only an `active` row
may be cancelled; the update flips the status, stamps `updated_at`, and
passes through the billing-text trigger. `RAISE EXCEPTION` is `.error`
(the reason is only logged). -/
def cancel_subscription_safe (sub : Option Subscription) (reason : Option String)
    (now : Timestamp) : Except String Subscription :=
  match sub with
  | none => .error "No subscription found for user"
  | some s =>
      if s.status ≠ "active" then .error "Subscription is not active"
      else
        let _ := reason
        .ok (update_billing_period_text now { s with status := "cancelled", updated_at := now })

/-- `reactivate_subscription(p_user_id, p_payment_method_id)`: only a
`cancelled`, not-yet-expired row may be reactivated; the update flips the
status back to `active`, stamps `updated_at`, and passes through the
billing-text trigger. The payment-method argument is only forwarded to the
external provider. -/
def reactivate_subscription (sub : Option Subscription) (payment_method_id : String)
    (now : Timestamp) : Except String Subscription :=
  match sub with
  | none => .error "No subscription found for user"
  | some s =>
      if s.status ≠ "cancelled" then .error "Subscription is not cancelled"
      else if ts_le s.current_period_end now then .error "Subscription has already expired"
      else
        let _ := payment_method_id
        .ok (update_billing_period_text now { s with status := "active", updated_at := now })

/-- The spec's days-remaining formula (§4.4): the floor of the day
difference between the period end and now, clamped at zero. -/
def spec_days_remaining (periodEnd now : Timestamp) : Int :=
  max 0 ((toEpochSec periodEnd - toEpochSec now).fdiv 86400)

/-- The claim-C6 consistency property: a row's stored derived fields agree
with the formatter and the accuracy check applied to its final
`(periodStart, periodEnd, planTier)` at the write's transaction time. -/
def derivedFieldsConsistent (r : Subscription) (now : Timestamp) : Prop :=
  r.billing_period_text =
    generate_billing_period_text r.current_period_start r.current_period_end
      r.plan_type now ∧
  r.billing_period_accurate =
    validate_billing_period_accuracy r.current_period_start r.current_period_end
      r.plan_type

/-- Concrete sample row (Jan 1 – Feb 1, 2024) used by concrete theorems. -/
def sampleSub (plan status : String) : Subscription :=
  { plan_type := plan
    status := status
    stripe_subscription_id := none
    stripe_customer_id := none
    current_period_start := ⟨2024, 1, 1, 0⟩
    current_period_end := ⟨2024, 2, 1, 0⟩
    billing_period_text := ""
    billing_period_accurate := true
    created_at := ⟨2024, 1, 1, 0⟩
    updated_at := ⟨2024, 1, 1, 0⟩ }

/-- Concrete webhook arguments with all optional parameters null. -/
def sampleArgs (plan status : String) : WebhookArgs :=
  { p_plan_type := plan, p_status := status }

/-- Concrete stored row carrying both provider identifiers. -/
def subWithProviderIds : Subscription :=
  { sampleSub "monthly" "active" with
    stripe_subscription_id := some "sub_1", stripe_customer_id := some "cus_1" }

/-- Concrete webhook arguments with a null subscription id, a new customer
id, an explicit period start, and no period end. -/
def subWithProviderIdsArgs : WebhookArgs :=
  { p_plan_type := "monthly"
    p_status := "active"
    p_stripe_customer_id := some "cus_2"
    p_period_start := some ⟨2024, 2, 1, 0⟩ }

/-- Concrete webhook arguments supplying an explicit period end that lies
before the explicit period start. -/
def argsExplicitBadBounds : WebhookArgs :=
  { p_plan_type := "monthly"
    p_status := "active"
    p_period_start := some ⟨2024, 5, 10, 0⟩
    p_period_end := some ⟨2024, 5, 1, 0⟩ }

lemma max0_tdiv_eq_max0_fdiv (d : Int) :
    max 0 (d.tdiv 86400) = max 0 (d.fdiv 86400) := by
  rcases le_or_lt 0 d with h | h
  · rw [← Int.fdiv_eq_tdiv h (by norm_num)]
  · have h1 : d.fdiv 86400 = d / 86400 := Int.fdiv_eq_ediv _ (by norm_num)
    have h2 : d.tdiv 86400 = -((-d).tdiv 86400) := by
      rw [← Int.neg_tdiv, neg_neg]
    have h3 : (-d).tdiv 86400 = (-d).fdiv 86400 :=
      (Int.fdiv_eq_tdiv (by omega) (by norm_num)).symm
    have h4 : (-d).fdiv 86400 = (-d) / 86400 := Int.fdiv_eq_ediv _ (by norm_num)
    have h5 : 0 ≤ (-d) / 86400 := Int.ediv_nonneg (by omega) (by norm_num)
    have h6 : d / 86400 ≤ 0 := by omega
    rw [h1, h2, h3, h4]
    rw [max_eq_left (by omega), max_eq_left h6]

/-- Claim C2: for a user with a subscription row, the access status is
computed from that row by `isExpired = (periodEnd <= now)`,
`isCancelled = (status = cancelled)`,
`daysRemaining = max 0 (floor of the day difference)`, and
`hasAccess = (status = active) OR (isCancelled AND NOT isExpired)`. -/
theorem c2_access_status_formulas (s : Subscription) (now : Timestamp) :
    (get_subscription_access_status (some s) now).is_expired =
        ts_le s.current_period_end now ∧
    (get_subscription_access_status (some s) now).is_cancelled =
        decide (s.status = "cancelled") ∧
    (get_subscription_access_status (some s) now).days_remaining =
        spec_days_remaining s.current_period_end now ∧
    (get_subscription_access_status (some s) now).has_access =
        (decide (s.status = "active") ||
          (decide (s.status = "cancelled") && !ts_le s.current_period_end now)) := by
  refine ⟨rfl, rfl, ?_, rfl⟩
  show max 0 ((toEpochSec s.current_period_end - toEpochSec now).tdiv 86400) = _
  exact max0_tdiv_eq_max0_fdiv _

/-- Claim C1 counterexample: a row with `status = active` whose period end
(Feb 1, 2024) is before now (Jun 1, 2024) still gets `hasAccess = true`,
so "expired access is always denied regardless of status" fails here. -/
theorem c1_counterexample :
    ts_le (sampleSub "monthly" "active").current_period_end ⟨2024, 6, 1, 0⟩ = true ∧
    (get_subscription_access_status (some (sampleSub "monthly" "active"))
        ⟨2024, 6, 1, 0⟩).has_access = true :=
  ⟨by decide, by decide⟩

/-- Claim C1 (amended): for a row whose period end is at or before now,
access is denied unless the row's status is `active` (an `active` row
keeps access even past its period end). -/
theorem c1_expired_denied_unless_active (s : Subscription) (now : Timestamp)
    (hexp : ts_le s.current_period_end now = true) (hact : s.status ≠ "active") :
    (get_subscription_access_status (some s) now).has_access = false := by
  show (decide (s.status = "active") ||
    (decide (s.status = "cancelled") && !ts_le s.current_period_end now)) = false
  simp [hexp, hact]

/-- Witness for C1: a cancelled row one day past its period end is denied
access. -/
theorem c1_witness :
    (get_subscription_access_status
      (some { plan_type := "monthly"
              status := "cancelled"
              stripe_subscription_id := none
              stripe_customer_id := none
              current_period_start := ⟨2024, 4, 30, 0⟩
              current_period_end := ⟨2024, 5, 31, 0⟩
              billing_period_text := ""
              billing_period_accurate := true
              created_at := ⟨2024, 4, 30, 0⟩
              updated_at := ⟨2024, 4, 30, 0⟩ })
      ⟨2024, 6, 1, 0⟩).has_access = false :=
  c1_expired_denied_unless_active _ _ (by decide) (by decide)

/-- Claim C10: with no subscription row, both `cancel_subscription_safe`
and `reactivate_subscription` raise "No subscription found for user"
(aborting the transaction, so the store is unchanged). -/
theorem c10_no_row_errors (reason : Option String) (pm : String) (now : Timestamp) :
    cancel_subscription_safe none reason now =
        .error "No subscription found for user" ∧
    reactivate_subscription none pm now =
        .error "No subscription found for user" :=
  ⟨rfl, rfl⟩

/-- Claim C7: `cancel` fails with the invalid-state error whenever the
current status is not `active` (in particular `past_due`); on an `active`
row it succeeds, setting `status = cancelled` and `updatedAt = now` and
leaving both period bounds unchanged. -/
theorem c7_cancel_precondition_and_effect (s : Subscription)
    (reason : Option String) (now : Timestamp) :
    (s.status ≠ "active" →
      cancel_subscription_safe (some s) reason now =
        .error "Subscription is not active") ∧
    (s.status = "active" →
      cancel_subscription_safe (some s) reason now =
        .ok (update_billing_period_text now
              { s with status := "cancelled", updated_at := now }) ∧
      ∀ r, cancel_subscription_safe (some s) reason now = .ok r →
        r.status = "cancelled" ∧ r.updated_at = now ∧
        r.current_period_start = s.current_period_start ∧
        r.current_period_end = s.current_period_end) := by
  constructor
  · intro h
    simp [cancel_subscription_safe, h]
  · intro h
    constructor
    · simp [cancel_subscription_safe, h]
    · intro r hr
      simp [cancel_subscription_safe, h] at hr
      subst hr
      exact ⟨rfl, rfl, rfl, rfl⟩

/-- Witness for C7: a `past_due` row cannot be cancelled; an `active` row
is cancelled with its period bounds intact. -/
theorem c7_witness :
    cancel_subscription_safe (some (sampleSub "monthly" "past_due")) none
        ⟨2024, 1, 15, 0⟩ = .error "Subscription is not active" ∧
    cancel_subscription_safe (some (sampleSub "monthly" "active")) none
        ⟨2024, 1, 15, 0⟩ =
      .ok (update_billing_period_text ⟨2024, 1, 15, 0⟩
            { sampleSub "monthly" "active" with
              status := "cancelled", updated_at := ⟨2024, 1, 15, 0⟩ }) ∧
    (update_billing_period_text ⟨2024, 1, 15, 0⟩
        { sampleSub "monthly" "active" with
          status := "cancelled", updated_at := ⟨2024, 1, 15, 0⟩ }).status =
      "cancelled" ∧
    (update_billing_period_text ⟨2024, 1, 15, 0⟩
        { sampleSub "monthly" "active" with
          status := "cancelled", updated_at := ⟨2024, 1, 15, 0⟩ }).current_period_end =
      (sampleSub "monthly" "active").current_period_end :=
  ⟨(c7_cancel_precondition_and_effect _ none _).1 (by decide),
   ((c7_cancel_precondition_and_effect (sampleSub "monthly" "active") none
      ⟨2024, 1, 15, 0⟩).2 rfl).1,
   (((c7_cancel_precondition_and_effect (sampleSub "monthly" "active") none
      ⟨2024, 1, 15, 0⟩).2 rfl).2 _
      ((c7_cancel_precondition_and_effect (sampleSub "monthly" "active") none
        ⟨2024, 1, 15, 0⟩).2 rfl).1).1,
   (((c7_cancel_precondition_and_effect (sampleSub "monthly" "active") none
      ⟨2024, 1, 15, 0⟩).2 rfl).2 _
      ((c7_cancel_precondition_and_effect (sampleSub "monthly" "active") none
        ⟨2024, 1, 15, 0⟩).2 rfl).1).2.2.2⟩

/-- Claim C8: `reactivate` fails with the invalid-state error when the
status is not `cancelled`, fails with the expired error when the status is
`cancelled` but the period end is at or before now, and on a cancelled row
with a future period end succeeds, setting `status = active` and
`updatedAt = now` without changing the period end. -/
theorem c8_reactivate_preconditions_and_effect (s : Subscription)
    (pm : String) (now : Timestamp) :
    (s.status ≠ "cancelled" →
      reactivate_subscription (some s) pm now =
        .error "Subscription is not cancelled") ∧
    (s.status = "cancelled" → ts_le s.current_period_end now = true →
      reactivate_subscription (some s) pm now =
        .error "Subscription has already expired") ∧
    (s.status = "cancelled" → ts_le s.current_period_end now = false →
      reactivate_subscription (some s) pm now =
        .ok (update_billing_period_text now
              { s with status := "active", updated_at := now }) ∧
      ∀ r, reactivate_subscription (some s) pm now = .ok r →
        r.status = "active" ∧ r.updated_at = now ∧
        r.current_period_end = s.current_period_end) := by
  refine ⟨fun h => by simp [reactivate_subscription, h], ?_, ?_⟩
  · intro h hexp
    simp [reactivate_subscription, h, hexp]
  · intro h hexp
    constructor
    · simp [reactivate_subscription, h, hexp]
    · intro r hr
      simp [reactivate_subscription, h, hexp] at hr
      subst hr
      exact ⟨rfl, rfl, rfl⟩

/-- Witness for C8: an `active` row cannot be reactivated; a cancelled row
past its period end yields the expired error; a cancelled row with a
future period end is reactivated with its period end intact. -/
theorem c8_witness :
    reactivate_subscription (some (sampleSub "monthly" "active")) "pm_1"
        ⟨2024, 1, 15, 0⟩ = .error "Subscription is not cancelled" ∧
    reactivate_subscription (some (sampleSub "monthly" "cancelled")) "pm_1"
        ⟨2024, 3, 1, 0⟩ = .error "Subscription has already expired" ∧
    reactivate_subscription (some (sampleSub "monthly" "cancelled")) "pm_1"
        ⟨2024, 1, 15, 0⟩ =
      .ok (update_billing_period_text ⟨2024, 1, 15, 0⟩
            { sampleSub "monthly" "cancelled" with
              status := "active", updated_at := ⟨2024, 1, 15, 0⟩ }) ∧
    (update_billing_period_text ⟨2024, 1, 15, 0⟩
        { sampleSub "monthly" "cancelled" with
          status := "active", updated_at := ⟨2024, 1, 15, 0⟩ }).status = "active" ∧
    (update_billing_period_text ⟨2024, 1, 15, 0⟩
        { sampleSub "monthly" "cancelled" with
          status := "active", updated_at := ⟨2024, 1, 15, 0⟩ }).current_period_end =
      (sampleSub "monthly" "cancelled").current_period_end :=
  ⟨(c8_reactivate_preconditions_and_effect _ "pm_1" _).1 (by decide),
   (c8_reactivate_preconditions_and_effect _ "pm_1" _).2.1 rfl (by decide),
   ((c8_reactivate_preconditions_and_effect (sampleSub "monthly" "cancelled") "pm_1"
      ⟨2024, 1, 15, 0⟩).2.2 rfl (by decide)).1,
   ((((c8_reactivate_preconditions_and_effect (sampleSub "monthly" "cancelled") "pm_1"
      ⟨2024, 1, 15, 0⟩).2.2 rfl (by decide)).2 _
      ((c8_reactivate_preconditions_and_effect (sampleSub "monthly" "cancelled") "pm_1"
        ⟨2024, 1, 15, 0⟩).2.2 rfl (by decide)).1)).1,
   ((((c8_reactivate_preconditions_and_effect (sampleSub "monthly" "cancelled") "pm_1"
      ⟨2024, 1, 15, 0⟩).2.2 rfl (by decide)).2 _
      ((c8_reactivate_preconditions_and_effect (sampleSub "monthly" "cancelled") "pm_1"
        ⟨2024, 1, 15, 0⟩).2.2 rfl (by decide)).1)).2.2⟩

/-- Claim C4: on a reconcile call for a user with an existing row, a null
provider identifier preserves the stored value and a non-null one
overwrites it, while the period bounds are overwritten unconditionally
(start defaulting to now, end to the calculated period end when absent). -/
theorem c4_update_preserves_ids_overwrites_period (a : WebhookArgs)
    (s : Subscription) (now : Timestamp) :
    (a.p_stripe_subscription_id = none →
      (handle_subscription_webhook a (some s) now).stripe_subscription_id =
        s.stripe_subscription_id) ∧
    (∀ v, a.p_stripe_subscription_id = some v →
      (handle_subscription_webhook a (some s) now).stripe_subscription_id = some v) ∧
    (a.p_stripe_customer_id = none →
      (handle_subscription_webhook a (some s) now).stripe_customer_id =
        s.stripe_customer_id) ∧
    (∀ v, a.p_stripe_customer_id = some v →
      (handle_subscription_webhook a (some s) now).stripe_customer_id = some v) ∧
    (handle_subscription_webhook a (some s) now).current_period_start =
      a.p_period_start.getD now ∧
    (handle_subscription_webhook a (some s) now).current_period_end =
      a.p_period_end.getD
        (calculate_subscription_period_end a.p_plan_type (a.p_period_start.getD now)) := by
  refine ⟨?_, ?_, ?_, ?_, rfl, ?_⟩
  · intro h
    simp [handle_subscription_webhook, update_billing_period_text, h, Option.or]
  · intro v h
    simp [handle_subscription_webhook, update_billing_period_text, h, Option.or]
  · intro h
    simp [handle_subscription_webhook, update_billing_period_text, h, Option.or]
  · intro v h
    simp [handle_subscription_webhook, update_billing_period_text, h, Option.or]
  · rcases a with ⟨plan, status, ssid, scid, ps, pe⟩
    cases pe <;> rfl

/-- Witness for C4: a second call with a null subscription id but a new
customer id keeps the stored subscription id, overwrites the customer id,
and moves the period bounds to the supplied start and calculated end. -/
theorem c4_witness :
    (handle_subscription_webhook subWithProviderIdsArgs
        (some subWithProviderIds) ⟨2024, 2, 1, 30⟩).stripe_subscription_id =
      some "sub_1" ∧
    (handle_subscription_webhook subWithProviderIdsArgs
        (some subWithProviderIds) ⟨2024, 2, 1, 30⟩).stripe_customer_id =
      some "cus_2" ∧
    (handle_subscription_webhook subWithProviderIdsArgs
        (some subWithProviderIds) ⟨2024, 2, 1, 30⟩).current_period_start =
      ⟨2024, 2, 1, 0⟩ ∧
    (handle_subscription_webhook subWithProviderIdsArgs
        (some subWithProviderIds) ⟨2024, 2, 1, 30⟩).current_period_end =
      calculate_subscription_period_end "monthly" ⟨2024, 2, 1, 0⟩ :=
  ⟨(c4_update_preserves_ids_overwrites_period _ _ _).1 rfl,
   (c4_update_preserves_ids_overwrites_period _ _ _).2.2.2.1 "cus_2" rfl,
   (c4_update_preserves_ids_overwrites_period subWithProviderIdsArgs
      subWithProviderIds ⟨2024, 2, 1, 30⟩).2.2.2.2.1,
   (c4_update_preserves_ids_overwrites_period subWithProviderIdsArgs
      subWithProviderIds ⟨2024, 2, 1, 30⟩).2.2.2.2.2⟩

lemma trigger_gives_consistency (r : Subscription) (now : Timestamp) :
    derivedFieldsConsistent (update_billing_period_text now r) now :=
  ⟨rfl, rfl⟩

/-- Claim C6: every write — reconcile (insert or update), a successful
cancel, and a successful reactivate — leaves the row with
`billingPeriodText` and `billingPeriodAccurate` recomputed from its final
period bounds and plan tier, as part of the same write. -/
theorem c6_derived_fields_recomputed_on_every_write (a : WebhookArgs)
    (prior : Option Subscription) (s : Subscription) (reason : Option String)
    (pm : String) (now : Timestamp) :
    derivedFieldsConsistent (handle_subscription_webhook a prior now) now ∧
    (∀ r, cancel_subscription_safe (some s) reason now = .ok r →
      derivedFieldsConsistent r now) ∧
    (∀ r, reactivate_subscription (some s) pm now = .ok r →
      derivedFieldsConsistent r now) := by
  refine ⟨?_, ?_, ?_⟩
  · cases prior <;> exact trigger_gives_consistency _ _
  · intro r hr
    by_cases h : s.status = "active"
    · simp [cancel_subscription_safe, h] at hr
      subst hr
      exact trigger_gives_consistency _ _
    · simp [cancel_subscription_safe, h] at hr
  · intro r hr
    by_cases h : s.status = "cancelled"
    · by_cases hexp : ts_le s.current_period_end now = true
      · simp [reactivate_subscription, h, hexp] at hr
      · simp [reactivate_subscription, h, hexp] at hr
        subst hr
        exact trigger_gives_consistency _ _
    · simp [reactivate_subscription, h] at hr

/-- Witness for C6: a fresh insert, a successful cancel, and a successful
reactivate all leave consistent derived fields at concrete inputs. -/
theorem c6_witness :
    derivedFieldsConsistent
        (handle_subscription_webhook (sampleArgs "monthly" "active") none
          ⟨2024, 1, 1, 0⟩) ⟨2024, 1, 1, 0⟩ ∧
    derivedFieldsConsistent
        (update_billing_period_text ⟨2024, 1, 15, 0⟩
          { sampleSub "monthly" "active" with
            status := "cancelled", updated_at := ⟨2024, 1, 15, 0⟩ })
        ⟨2024, 1, 15, 0⟩ ∧
    derivedFieldsConsistent
        (update_billing_period_text ⟨2024, 1, 20, 0⟩
          { sampleSub "monthly" "cancelled" with
            status := "active", updated_at := ⟨2024, 1, 20, 0⟩ })
        ⟨2024, 1, 20, 0⟩ :=
  ⟨(c6_derived_fields_recomputed_on_every_write (sampleArgs "monthly" "active")
      none (sampleSub "monthly" "active") none "pm" ⟨2024, 1, 1, 0⟩).1,
   (c6_derived_fields_recomputed_on_every_write (sampleArgs "monthly" "active")
      none (sampleSub "monthly" "active") none "pm" ⟨2024, 1, 15, 0⟩).2.1 _ rfl,
   (c6_derived_fields_recomputed_on_every_write (sampleArgs "monthly" "active")
      none (sampleSub "monthly" "cancelled") none "pm" ⟨2024, 1, 20, 0⟩).2.2 _ rfl⟩

/-- Claim C5: the period calculator implements the fixed rule table —
trial: +30 days; monthly: +1 calendar month; semiannual: +6 calendar
months; annual: +1 calendar year; any unrecognized tier: +30 days. -/
theorem c5_period_end_rule_table (s : Timestamp) :
    calculate_subscription_period_end "trial" s = addDays 30 s ∧
    calculate_subscription_period_end "monthly" s = addMonthsClip 1 s ∧
    calculate_subscription_period_end "semiannual" s = addMonthsClip 6 s ∧
    calculate_subscription_period_end "annual" s = addYearsClip 1 s ∧
    ∀ p : String, p ≠ "trial" → p ≠ "monthly" → p ≠ "semiannual" → p ≠ "annual" →
      calculate_subscription_period_end p s = addDays 30 s := by
  refine ⟨?_, ?_, ?_, ?_, ?_⟩
  · simp [calculate_subscription_period_end]
  · simp [calculate_subscription_period_end]
  · simp [calculate_subscription_period_end]
  · simp [calculate_subscription_period_end]
  · intro p h1 h2 h3 h4
    simp [calculate_subscription_period_end, h1, h2, h3, h4]

/-- Witness for C5: the spec's worked example
`calculatePeriodEnd(monthly, 2024-01-15T00:00Z) = 2024-02-15T00:00Z`,
month-end clamping (`Jan 31 + 1 month = Feb 29` in a leap year), and the
30-day fallback for an unrecognized tier. -/
theorem c5_witness :
    calculate_subscription_period_end "monthly" ⟨2024, 1, 15, 0⟩ =
        addMonthsClip 1 ⟨2024, 1, 15, 0⟩ ∧
    addMonthsClip 1 (⟨2024, 1, 15, 0⟩ : Timestamp) = ⟨2024, 2, 15, 0⟩ ∧
    addMonthsClip 1 (⟨2024, 1, 31, 0⟩ : Timestamp) = ⟨2024, 2, 29, 0⟩ ∧
    calculate_subscription_period_end "enterprise" ⟨2024, 1, 15, 0⟩ =
        addDays 30 ⟨2024, 1, 15, 0⟩ ∧
    addDays 30 (⟨2024, 1, 15, 0⟩ : Timestamp) = ⟨2024, 2, 14, 0⟩ :=
  ⟨(c5_period_end_rule_table _).2.1, by decide, by decide,
   (c5_period_end_rule_table ⟨2024, 1, 15, 0⟩).2.2.2.2 "enterprise"
     (by decide) (by decide) (by decide) (by decide),
   by decide⟩

/-- Claim C3 counterexample: with `periodStart`/`periodEnd` absent,
reconcile defaults the period start to `now()`, so a retry of the same
arguments at a later instant moves `current_period_start` — the final row
differs from the single-call row in a field other than `updatedAt`. -/
theorem c3_counterexample :
    (handle_subscription_webhook (sampleArgs "monthly" "active")
        (some (handle_subscription_webhook (sampleArgs "monthly" "active") none
          ⟨2024, 1, 15, 0⟩))
        ⟨2024, 1, 16, 0⟩).current_period_start ≠
      (handle_subscription_webhook (sampleArgs "monthly" "active") none
        ⟨2024, 1, 15, 0⟩).current_period_start := by
  decide

/-- Claim C3 (amended): reconcile is idempotent within a transaction
instant — a second call with identical arguments at the same `now()`
reproduces the single-call row exactly (including `updatedAt`); when the
period bounds are absent and time advances between calls, the period
fields move to the later call's `now()` instead. -/
theorem c3_reconcile_idempotent_same_instant (a : WebhookArgs)
    (prior : Option Subscription) (t : Timestamp) :
    handle_subscription_webhook a (some (handle_subscription_webhook a prior t)) t =
      handle_subscription_webhook a prior t := by
  rcases a with ⟨plan, status, ssid, scid, ps, pe⟩
  cases prior <;> cases ssid <;> cases scid <;> rfl

lemma ts_lt_succDay (t : Timestamp) : ts_lt t (succDay t) = true := by
  obtain ⟨y, mo, d, sc⟩ := t
  simp only [succDay]
  split
  · simp only [ts_lt, Bool.or_eq_true, Bool.and_eq_true, decide_eq_true_eq,
      true_and, false_or, lt_self_iff_false, false_and, or_false]
    omega
  · split
    · simp only [ts_lt, Bool.or_eq_true, Bool.and_eq_true, decide_eq_true_eq,
      true_and, false_or, lt_self_iff_false, false_and, or_false]
      omega
    · simp only [ts_lt, Bool.or_eq_true, Bool.and_eq_true, decide_eq_true_eq,
      true_and, false_or, lt_self_iff_false, false_and, or_false]
      omega

lemma ts_lt_trans {a b c : Timestamp} (h1 : ts_lt a b = true)
    (h2 : ts_lt b c = true) : ts_lt a c = true := by
  simp only [ts_lt, Bool.or_eq_true, Bool.and_eq_true, decide_eq_true_eq,
      true_and, false_or, lt_self_iff_false, false_and, or_false] at h1 h2 ⊢
  omega

lemma ts_lt_addDays (n : Nat) (t : Timestamp) :
    ts_lt t (addDays (n + 1) t) = true := by
  induction n with
  | zero => exact ts_lt_succDay t
  | succ k ih => exact ts_lt_trans ih (ts_lt_succDay (addDays (k + 1) t))

lemma ts_lt_addMonthsClip (n : Nat) (t : Timestamp) (h : 1 ≤ n) :
    ts_lt t (addMonthsClip n t) = true := by
  obtain ⟨y, mo, d, sc⟩ := t
  unfold addMonthsClip
  simp only [ts_lt, Bool.or_eq_true, Bool.and_eq_true, decide_eq_true_eq,
      true_and, false_or, lt_self_iff_false, false_and, or_false]
  omega

lemma ts_lt_addYearsClip (n : Nat) (t : Timestamp) (h : 1 ≤ n) :
    ts_lt t (addYearsClip n t) = true := by
  obtain ⟨y, mo, d, sc⟩ := t
  unfold addYearsClip
  simp only [ts_lt, Bool.or_eq_true, Bool.and_eq_true, decide_eq_true_eq,
      true_and, false_or, lt_self_iff_false, false_and, or_false]
  omega

lemma ts_lt_calculate_period_end (plan : String) (t : Timestamp) :
    ts_lt t (calculate_subscription_period_end plan t) = true := by
  unfold calculate_subscription_period_end
  split
  · exact ts_lt_addDays 29 t
  · split
    · exact ts_lt_addMonthsClip 1 t (by norm_num)
    · split
      · exact ts_lt_addMonthsClip 6 t (by norm_num)
      · split
        · exact ts_lt_addYearsClip 1 t (by norm_num)
        · exact ts_lt_addDays 29 t

/-- Claim C9 counterexample: reconcile performs no validation on explicit
provider-reported bounds, so a call supplying `periodEnd` before
`periodStart` writes a row violating `periodEnd > periodStart`. -/
theorem c9_counterexample :
    ts_lt (handle_subscription_webhook argsExplicitBadBounds none
          ⟨2024, 5, 10, 0⟩).current_period_start
        (handle_subscription_webhook argsExplicitBadBounds none
          ⟨2024, 5, 10, 0⟩).current_period_end =
      false := by
  decide

/-- Claim C9 (amended): every reconcile call that does not supply an
explicit `periodEnd` writes a row with `periodEnd > periodStart` (the
calculated end is strictly later for every tier), and cancel and
reactivate preserve the invariant since they never touch the bounds; a
reconcile call supplying an explicit `periodEnd` at or before the
effective `periodStart` violates it. -/
theorem c9_period_invariant_without_explicit_end (a : WebhookArgs)
    (prior : Option Subscription) (s r : Subscription) (reason : Option String)
    (pm : String) (now : Timestamp) :
    (a.p_period_end = none →
      ts_lt (handle_subscription_webhook a prior now).current_period_start
        (handle_subscription_webhook a prior now).current_period_end = true) ∧
    (ts_lt s.current_period_start s.current_period_end = true →
      cancel_subscription_safe (some s) reason now = .ok r →
      ts_lt r.current_period_start r.current_period_end = true) ∧
    (ts_lt s.current_period_start s.current_period_end = true →
      reactivate_subscription (some s) pm now = .ok r →
      ts_lt r.current_period_start r.current_period_end = true) := by
  refine ⟨?_, ?_, ?_⟩
  · intro h
    rcases a with ⟨plan, status, ssid, scid, ps, pe⟩
    subst h
    cases prior <;> exact ts_lt_calculate_period_end plan (ps.getD now)
  · intro hinv hok
    by_cases h : s.status = "active"
    · simp [cancel_subscription_safe, h] at hok
      subst hok
      exact hinv
    · simp [cancel_subscription_safe, h] at hok
  · intro hinv hok
    by_cases h : s.status = "cancelled"
    · by_cases hexp : ts_le s.current_period_end now = true
      · simp [reactivate_subscription, h, hexp] at hok
      · simp [reactivate_subscription, h, hexp] at hok
        subst hok
        exact hinv
    · simp [reactivate_subscription, h] at hok

/-- Witness for C9: a reconcile with no explicit period end yields a
strictly increasing period at a concrete input, and cancel preserves a
concrete row's valid period. -/
theorem c9_witness :
    ts_lt (handle_subscription_webhook (sampleArgs "annual" "active") none
          ⟨2024, 3, 1, 0⟩).current_period_start
        (handle_subscription_webhook (sampleArgs "annual" "active") none
          ⟨2024, 3, 1, 0⟩).current_period_end = true ∧
    ts_lt (update_billing_period_text ⟨2024, 1, 15, 0⟩
          { sampleSub "monthly" "active" with
            status := "cancelled", updated_at := ⟨2024, 1, 15, 0⟩ }).current_period_start
        (update_billing_period_text ⟨2024, 1, 15, 0⟩
          { sampleSub "monthly" "active" with
            status := "cancelled", updated_at := ⟨2024, 1, 15, 0⟩ }).current_period_end =
      true :=
  ⟨(c9_period_invariant_without_explicit_end (sampleArgs "annual" "active") none
      (sampleSub "monthly" "active") (sampleSub "monthly" "active") none "pm"
      ⟨2024, 3, 1, 0⟩).1 rfl,
   (c9_period_invariant_without_explicit_end (sampleArgs "annual" "active") none
      (sampleSub "monthly" "active")
      (update_billing_period_text ⟨2024, 1, 15, 0⟩
        { sampleSub "monthly" "active" with
          status := "cancelled", updated_at := ⟨2024, 1, 15, 0⟩ }) none "pm"
      ⟨2024, 1, 15, 0⟩).2.1 (by decide) rfl⟩
